import Mathlib

/-!
Verification development for the Jup-limit-order repository.

The repository is a Solana limit-order engine: an `OrderBook` registers orders
and spawns, per order, a background watcher (`_order` in `src/common/types.rs`)
that polls the price and, on a match, executes a tax-adjusted Jupiter swap
(`swap_with_tax` in `src/solana/swap.rs`), either broadcast directly or sent
as a Jito bundle together with a tip transaction.

The embedding below translates that code shallowly into Lean:

* machine integers (`u64`) are `Nat` with explicit `% 2 ^ 64` where the Rust
  arithmetic can wrap;
* network calls are oracle fields (`Except`-valued) consumed in program order;
* each `await` point is numbered by a clock, and the `tokio::select!` in
  `place_order` that races the oneshot cancel signal against the whole watcher
  future is modelled by an optional clock index `cancelAt`: if the signal
  becomes ready while the watcher is suspended on await number `t`, the select
  resolves the cancel branch and drops the watcher right there (the request of
  await `t` was already issued, its result is never consumed);
* prices (`f32` in the source) are modelled as rationals;
* Solana public keys are their 32-byte contents, obtained by base58 decoding
  exactly as `Pubkey::from_str` does (decode, then require exactly 32 bytes).

The repository contains two drafts of the execution path.  The draft in
`src/types.rs` / `src/swap.rs` does not compile (`_order` there references an
undefined `user_keypair` binding and never awaits the swap), so the embedding
follows the coherent, compiling path `src/common/types.rs` →
`src/solana/swap.rs` → `src/utils.rs` → `src/jito.rs`.
-/

/-! ## Base58 decoding and public keys (`Pubkey::from_str`, `src/jito.rs`) -/

/-- The Bitcoin base58 alphabet used by Solana's `Pubkey::from_str`. -/
def base58Alphabet : List Char :=
  "123456789ABCDEFGHJKLMNPQRSTUVWXYZabcdefghijkmnopqrstuvwxyz".data

/-- Value of one base58 digit, `none` for characters outside the alphabet. -/
def b58DigitVal (c : Char) : Option Nat :=
  go base58Alphabet 0
where
  go : List Char → Nat → Option Nat
    | [], _ => none
    | d :: ds, i => if d = c then some i else go ds (i + 1)

/-- Big-endian value of a base58 digit string; `none` if any char is invalid. -/
def b58Value : List Char → Nat → Option Nat
  | [], acc => some acc
  | c :: cs, acc =>
    match b58DigitVal c with
    | none => none
    | some v => b58Value cs (acc * 58 + v)

/-- Number of leading `'1'` characters (each encodes one leading zero byte). -/
def b58LeadingOnes : List Char → Nat
  | [] => 0
  | c :: cs => if c = '1' then b58LeadingOnes cs + 1 else 0

/-- Big-endian bytes of a natural number (empty for 0); fuel-driven so the
kernel can evaluate it. -/
def natBytesBE (fuel n : Nat) : List Nat :=
  match fuel with
  | 0 => []
  | fuel + 1 => if n = 0 then [] else natBytesBE fuel (n / 256) ++ [n % 256]

/-- Base58-decode a string to its byte contents, as the `bs58` crate does:
one zero byte per leading `'1'`, then the big-endian bytes of the value. -/
def b58Decode (s : String) : Option (List Nat) :=
  match b58Value s.data 0 with
  | none => none
  | some v => some (List.replicate (b58LeadingOnes s.data) 0 ++ natBytesBE 64 v)

/-- A Solana public key, modelled by its 32-byte contents. -/
abbrev Pubkey := List Nat

/-- `Pubkey::from_str`: base58-decode and require exactly 32 bytes. -/
def pubkeyFromStr (s : String) : Option Pubkey :=
  match b58Decode s with
  | none => none
  | some bs => if bs.length = 32 then some bs else none

/-- The wrapped-SOL mint `So11111111111111111111111111111111111111112`
(constant `SOL` in `src/lib.rs`). -/
def SOL : Pubkey :=
  (pubkeyFromStr "So11111111111111111111111111111111111111112").getD []

/-- The fixed pool of Jito tip accounts (`src/jito.rs`). -/
def TIP_ACCOUNTS : List String :=
  [ "ADaUMid9yfUytqMBgopwjb2DTLSokTSzL1zt6iGPaS49"
  , "DttWaMuVvTiduZRnguLF7jNxTgiMBZ1hyAumKUiL2KRL"
  , "Cw8CFyM9FkoMi7K7Crf6HNQqf4uEMzpKw6QNghXLvLkY"
  , "ADuUkR4vqLUMWXxW9gh6D6L8pMSawimctcNZ5pGwDcEt"
  , "HFqU5x63VTqvQss8hp11i4wVV8bD44PvwucfZ2bU7gRe"
  , "DfXygSm4jCyNCybVYYK6DwvWqjKee8pbDmJGcLWNDXjh"
  , "3AVi9Tg9Uo68tJfuvoKvqKNWKkC5wPdSSdeBnizKZ6jT"
  , "96gYZGLnJYVFmbjzopPSU6QiEV5fGqZNyN9nmNhvrZU5" ]

/-- `get_tip_account` (`src/jito.rs`): choose one pool entry at random
(`IteratorRandom::choose`; the uniformly random draw is modelled by the
parameter `r`, reduced mod the pool size), parse it with `Pubkey::from_str`
(the `?` propagates a parse failure), and fall back to the
`"jito: no tip accounts available"` error when the pool is empty. -/
def get_tip_account (r : Nat) : Except String Pubkey :=
  match TIP_ACCOUNTS.get? (r % TIP_ACCOUNTS.length) with
  | some acc =>
    match pubkeyFromStr acc with
    | some pk => .ok pk
    | none => .error "pubkey parse error"
  | none => .error "jito: no tip accounts available"

/-! ## `sub_tax` (`src/solana/swap.rs`, identical twin in `src/swap.rs`)

```rust
pub fn sub_tax(amount: u64, tax_bps: u16) -> (u64, u64) {
    let tax = (amount * tax_bps as u64) / 10000;
    (amount - tax, tax)
}
```

`amount * tax_bps` is unchecked `u64` multiplication, so it wraps modulo
`2 ^ 64` (release-profile semantics); the subtraction is likewise wrapping. -/

/-- `2 ^ 64`, the modulus of `u64` arithmetic. -/
def U64 : Nat := 2 ^ 64

/-- `sub_tax` with `u64` wrapping semantics. -/
def sub_tax (amount tax_bps : Nat) : Nat × Nat :=
  let tax := amount * tax_bps % U64 / 10000
  ((amount + U64 - tax) % U64, tax)

/-! ## Instructions, transactions and the swap-path oracle

Route instructions returned by Jupiter are opaque values (`Ix.route`);
`system_instruction::transfer` is `Ix.transfer`.  A compiled versioned
transaction keeps its payer, ordered instruction list, resolved lookup
tables and blockhash. -/

/-- An instruction: a system transfer built by the planner, or an opaque
route instruction returned by Jupiter. -/
inductive Ix
  | transfer (src dst : Pubkey) (lamports : Nat)
  | route (r : Nat)
deriving DecidableEq, Repr

/-- A resolved address-lookup-table account. -/
structure AltAccount where
  key : Pubkey
  addresses : List Pubkey
deriving DecidableEq, Repr

/-- A compiled, signed versioned transaction (`VersionedTransaction`). -/
structure Tx where
  payer : Pubkey
  ixs : List Ix
  alts : List AltAccount
  blockhash : Nat
deriving DecidableEq, Repr

/-- `SwapInstructionsResponse`: the fields of the Jupiter response that
`swap_with_tax` consumes. -/
structure SwapResp where
  setup_instructions : List Nat
  swap_instruction : Nat
  cleanup_instruction : Option Nat
  address_lookup_table_addresses : List Pubkey
deriving DecidableEq, Repr

/-- One observable request issued by the execution path.  Every constructor
except `compile` (a synchronous `Message::try_compile`/`try_new`) is an
`await` point. -/
inductive Event
  | quoteRequest (amount : Nat) (input_mint output_mint : Pubkey) (slippage_bps : Nat)
  | swapIxsRequest
  | getBlockhash
  | fetchAlts (keys : List Pubkey)
  | compile (ixs : List Ix)
  | simulate (tx : Tx) (ok : Bool)
  | submitBundle (txs : List Tx)
  | pollStatus (id : String)
  | broadcastConfirm (tx : Tx)
  | pricePoll (iter : Nat)
  | sleep (ms : Nat)
deriving DecidableEq, Repr

/-- Failure of the watcher/swap path: either the select resolved the cancel
branch, or the code returned an error. -/
inductive SwapErr
  | quotePanicked
  | swapIxsFailed
  | priceFetchFailed
  | badInputMint
  | badOutputMint
  | blockhashFailed
  | altFetchFailed
  | altDeserializeFailed
  | compileFailed
  | simulateRpcFailed
  | simulationFailed
  | tipAccountFailed
  | tipCompileFailed
  | statusPollFailed
  | broadcastFailed
deriving DecidableEq, Repr

/-- Result of a watcher computation: cancelled by the oneshot signal, or a
source-level `Result`. -/
inductive Fail
  | canceled
  | err (e : SwapErr)
deriving DecidableEq, Repr

/-- Responses of the external collaborators, consumed in program order by one
execution attempt.  `Except Unit _` is a fallible network call. -/
structure SwapOracle where
  /-- `jup.quote(..)` giving `out_amount`; an error makes the source panic
  (`unwrap` in `src/solana/jup.rs`). -/
  quoteRes : Except Unit Nat
  /-- `jup.swap_instructions(..)`. -/
  swapIxsRes : Except Unit SwapResp
  /-- `rpc.get_latest_blockhash()`. -/
  blockhashRes : Except Unit Nat
  /-- `rpc.get_multiple_accounts(..)`: per requested key, `none` when absent,
  otherwise the `AddressLookupTable::deserialize` result for its data. -/
  altFetchRes : Except Unit (List (Option (Except Unit (List Pubkey))))
  /-- Whether `Message::try_compile` + `VersionedTransaction::try_new` of the
  swap transaction succeed. -/
  compileOk : Bool
  /-- `rpc.simulate_transaction(..)`: `resp.value.err`, or an RPC error. -/
  simRes : Except Unit (Option Unit)
  /-- The random draw of `get_tip_account`. -/
  tipChoice : Nat
  /-- Whether compiling/signing the tip transaction succeeds. -/
  tipCompileOk : Bool
  /-- `jito.send_bundle(..)`: `.ok r` is a response whose `"result"` field is
  `r`; `.error` is a transport error. -/
  sendBundleRes : Except Unit (Option String)
  /-- `jito.get_bundle_statuses(..)`. -/
  statusRes : Except Unit Unit
  /-- `rpc.send_and_confirm_transaction_with_spinner(..)`. -/
  broadcastRes : Except Unit Unit

/-- Does the cancel signal become ready while the watcher is suspended on
await number `c`?  (`tokio::select!` then resolves the cancel branch and
drops the watcher future.) -/
def hitsCancel : Option Nat → Nat → Bool
  | some t, c => t == c
  | none, _ => false

/-- `get_swap_ix` (`src/solana/jup.rs`): quote (panics on error), then fetch
swap instructions.  Two await points. -/
def get_swap_ix (o : SwapOracle) (cancelAt : Option Nat) (c : Nat)
    (amount : Nat) (input_mint output_mint : Pubkey) (slippage_bps : Nat) :
    List Event × Nat × Except Fail (Nat × SwapResp) :=
  let ev := Event.quoteRequest amount input_mint output_mint slippage_bps
  if hitsCancel cancelAt c then ([ev], c + 1, .error .canceled)
  else
    match o.quoteRes with
    | .error _ => ([ev], c + 1, .error (.err .quotePanicked))
    | .ok out_amount =>
      if hitsCancel cancelAt (c + 1) then
        ([ev, .swapIxsRequest], c + 2, .error .canceled)
      else
        match o.swapIxsRes with
        | .error _ => ([ev, .swapIxsRequest], c + 2, .error (.err .swapIxsFailed))
        | .ok resp => ([ev, .swapIxsRequest], c + 2, .ok (out_amount, resp))

/-- The loop body of `get_address_lookup` (`src/utils.rs`): keep present
accounts, propagate any deserialization error with `?`, skip absent ones. -/
def resolveAlts : List (Pubkey × Option (Except Unit (List Pubkey))) →
    Except Fail (List AltAccount)
  | [] => .ok []
  | (_, none) :: rest => resolveAlts rest
  | (_, some (.error _)) :: _ => .error (.err .altDeserializeFailed)
  | (key, some (.ok addrs)) :: rest =>
    match resolveAlts rest with
    | .error e => .error e
    | .ok alts => .ok ({ key := key, addresses := addrs } :: alts)

/-- `get_address_lookup` (`src/utils.rs`): no RPC call when the key list is
empty; otherwise one batched `get_multiple_accounts` await. -/
def get_address_lookup (o : SwapOracle) (cancelAt : Option Nat) (c : Nat)
    (keys : List Pubkey) : List Event × Nat × Except Fail (List AltAccount) :=
  if keys.isEmpty then ([], c, .ok [])
  else
    let ev := Event.fetchAlts keys
    if hitsCancel cancelAt c then ([ev], c + 1, .error .canceled)
    else
      match o.altFetchRes with
      | .error _ => ([ev], c + 1, .error (.err .altFetchFailed))
      | .ok infos =>
        match resolveAlts (keys.zip infos) with
        | .error e => ([ev], c + 1, .error e)
        | .ok alts => ([ev], c + 1, .ok alts)

/-- `build_versioned_transaction` (`src/utils.rs`): resolve lookup tables,
then synchronously compile and sign. -/
def build_versioned_transaction (o : SwapOracle) (cancelAt : Option Nat)
    (c : Nat) (ixs : List Ix) (user : Pubkey) (alt_keys : List Pubkey)
    (blockhash : Nat) : List Event × Nat × Except Fail Tx :=
  match get_address_lookup o cancelAt c alt_keys with
  | (tr, c1, .error e) => (tr, c1, .error e)
  | (tr, c1, .ok alts) =>
    if o.compileOk then
      (tr ++ [.compile ixs], c1,
        .ok { payer := user, ixs := ixs, alts := alts, blockhash := blockhash })
    else (tr ++ [.compile ixs], c1, .error (.err .compileFailed))

/-- `send_bundle` (`src/utils.rs`): serialize the bundle, submit it once; a
transport error or a response without a `"result"` field both yield
`Ok(None)` — the failure is swallowed, not propagated. -/
def send_bundle (o : SwapOracle) (cancelAt : Option Nat) (c : Nat)
    (txs : List Tx) : List Event × Nat × Except Fail (Option String) :=
  let ev := Event.submitBundle txs
  if hitsCancel cancelAt c then ([ev], c + 1, .error .canceled)
  else
    match o.sendBundleRes with
    | .error _ => ([ev], c + 1, .ok none)
    | .ok r => ([ev], c + 1, .ok r)

/-- `swap_with_tax` (`src/solana/swap.rs`):

1. tax before the swap iff the input mint is SOL — then a transfer of `tax`
   to the tax account is pushed first and the route is requested for the net
   amount; otherwise the route is requested for the full amount;
2. route instructions (`setup_instructions` then `swap_instruction`) follow;
3. non-SOL input with nonzero `out_amount` appends a transfer of
   `sub_tax(out_amount, tax_bps).1` after the route instructions;
4. an optional `cleanup_instruction` is appended last;
5. fetch a blockhash, build/sign the versioned transaction, simulate it — a
   simulation error returns `Err` before any send;
6. with a tip: compile a second transfer transaction paying the tip to the
   random Jito tip account, submit `[swap_tx, tip_tx]` as one bundle, and
   poll its status exactly once when a bundle id came back;
   without a tip: `send_and_confirm_transaction_with_spinner`. -/
def swap_with_tax (o : SwapOracle) (cancelAt : Option Nat) (c : Nat)
    (user tax_account : Pubkey) (tax_bps amount : Nat)
    (input_mint output_mint : Pubkey) (slippage_bps : Nat)
    (tip_amount : Option Nat) : List Event × Nat × Except Fail Unit :=
  let tax_before_swap : Bool := input_mint == SOL
  let amount_specified := (sub_tax amount tax_bps).1
  let tax := (sub_tax amount tax_bps).2
  let ixs0 : List Ix :=
    if tax_before_swap then [.transfer user tax_account tax] else []
  let swap_amount := if tax_before_swap then amount_specified else amount
  match get_swap_ix o cancelAt c swap_amount input_mint output_mint slippage_bps with
  | (tr, c1, .error e) => (tr, c1, .error e)
  | (tr, c1, .ok (out_amount, swap_resp)) =>
    let ixs1 := ixs0 ++ swap_resp.setup_instructions.map .route
      ++ [.route swap_resp.swap_instruction]
    let ixs2 :=
      if !tax_before_swap && out_amount != 0 then
        ixs1 ++ [.transfer user tax_account (sub_tax out_amount tax_bps).2]
      else ixs1
    let ixs :=
      match swap_resp.cleanup_instruction with
      | some clean => ixs2 ++ [.route clean]
      | none => ixs2
    let trB := tr ++ [Event.getBlockhash]
    if hitsCancel cancelAt c1 then (trB, c1 + 1, .error .canceled)
    else
      match o.blockhashRes with
      | .error _ => (trB, c1 + 1, .error (.err .blockhashFailed))
      | .ok blockhash =>
        match build_versioned_transaction o cancelAt (c1 + 1) ixs user
            swap_resp.address_lookup_table_addresses blockhash with
        | (trC, c2, .error e) => (trB ++ trC, c2, .error e)
        | (trC, c2, .ok versioned_tx) =>
          let simOk : Bool :=
            match o.simRes with
            | .ok none => true
            | _ => false
          let trD := trB ++ trC ++ [Event.simulate versioned_tx simOk]
          if hitsCancel cancelAt c2 then (trD, c2 + 1, .error .canceled)
          else
            match o.simRes with
            | .error _ => (trD, c2 + 1, .error (.err .simulateRpcFailed))
            | .ok (some _) => (trD, c2 + 1, .error (.err .simulationFailed))
            | .ok none =>
              match tip_amount with
              | some tip =>
                match get_tip_account o.tipChoice with
                | .error _ => (trD, c2 + 1, .error (.err .tipAccountFailed))
                | .ok tip_acct =>
                  if o.tipCompileOk then
                    let tip_tx : Tx :=
                      { payer := user, ixs := [.transfer user tip_acct tip],
                        alts := [], blockhash := blockhash }
                    match send_bundle o cancelAt (c2 + 1) [versioned_tx, tip_tx] with
                    | (trE, c3, .error e) => (trD ++ trE, c3, .error e)
                    | (trE, c3, .ok bundle_id) =>
                      match bundle_id with
                      | some id =>
                        let trF := trD ++ trE ++ [Event.pollStatus id]
                        if hitsCancel cancelAt c3 then (trF, c3 + 1, .error .canceled)
                        else
                          match o.statusRes with
                          | .error _ => (trF, c3 + 1, .error (.err .statusPollFailed))
                          | .ok _ => (trF, c3 + 1, .ok ())
                      | none => (trD ++ trE, c3, .ok ())
                  else (trD, c2 + 1, .error (.err .tipCompileFailed))
              | none =>
                let trG := trD ++ [Event.broadcastConfirm versioned_tx]
                if hitsCancel cancelAt (c2 + 1) then (trG, c2 + 2, .error .canceled)
                else
                  match o.broadcastRes with
                  | .error _ => (trG, c2 + 2, .error (.err .broadcastFailed))
                  | .ok _ => (trG, c2 + 2, .ok ())

/-! ## OrderBook registry (`src/common/types.rs`)

`orders : HashMap<Uuid, Order>` and `cancel_tasks : HashMap<Uuid, Sender<()>>`
are modelled as association lists with unique keys; a `Sender` is a unit
token, and signalling it is recorded in the operation's output.  Uuids are
`Nat`; `Uuid::new_v4()` draws a random id, modelled by passing the fresh id
as an argument.  The shared client handles (`http`, `jito`, `jup`, `rpc`)
carry no registry state and are omitted from the structure. -/

/-- `Order` (`src/common/types.rs`).  `price: f32` is modelled as `ℚ`. -/
structure Order where
  order_id : Nat
  price : ℚ
  input_mint : String
  output_mint : String
  amount : Nat
  slippage_bps : Nat
  tip_amount : Option Nat
deriving DecidableEq

/-- The registry-relevant state of `OrderBook`. -/
structure OrderBook where
  orders : List (Nat × Order)
  tokens : List (Pubkey × ℚ)
  tax_account : Pubkey
  tax_bps : Nat
  cancel_tasks : List (Nat × Unit)
deriving DecidableEq

/-- Association-list lookup (`HashMap::get`). -/
def mapLookup {α : Type} : List (Nat × α) → Nat → Option α
  | [], _ => none
  | (k, v) :: m, key => if k = key then some v else mapLookup m key

/-- Association-list removal (`HashMap::remove`). -/
def mapRemove {α : Type} (m : List (Nat × α)) (key : Nat) : List (Nat × α) :=
  m.filter (fun p => p.1 ≠ key)

/-- Association-list insertion (`HashMap::insert`, replacing any old value). -/
def mapInsert {α : Type} (m : List (Nat × α)) (key : Nat) (v : α) :
    List (Nat × α) :=
  (key, v) :: mapRemove m key

/-- `Keypair::from_base58_string`: `bs58::decode(s).into_vec().unwrap()`
followed by `Keypair::from_bytes(..).unwrap()`.  It panics (`none`) unless
the string is valid base58 decoding to exactly 64 bytes whose last 32 bytes
(the public key) form a valid ed25519 point; the point-decompression check
is curve arithmetic outside this embedding and is supplied as the oracle
`pkValid`.  On success it yields the keypair's public key. -/
def keypairFromBase58 (pkValid : List Nat → Bool) (s : String) :
    Option Pubkey :=
  match b58Decode s with
  | none => none
  | some bs =>
    if bs.length = 64 then
      if pkValid (bs.drop 32) then some (bs.drop 32) else none
    else none

/-- `OrderBook::place_order` (`src/common/types.rs`): build the `Order`,
insert it into `orders`, create the oneshot pair and insert the sender into
`cancel_tasks`, then parse the keypair string with
`Keypair::from_base58_string` (line 93) — which panics on an invalid
string, **after** both registry inserts and before any watcher is spawned —
then spawn the watcher task and return the id.  There is no validation of
any other argument.  The middle component lists the spawned watcher (with
the keypair string it captured); the last component is `none` when the
keypair parse panicked, otherwise the returned `Result`. -/
def place_order (pkValid : List Nat → Bool) (ob : OrderBook) (fresh : Nat)
    (keypair_str : String) (input_mint output_mint : String) (price : ℚ)
    (amount : Nat) (slippage_bps : Nat) (tip_amount : Option Nat) :
    OrderBook × List (String × Order) × Option (Except Unit Nat) :=
  let order : Order :=
    { order_id := fresh, price := price, input_mint := input_mint,
      output_mint := output_mint, amount := amount,
      slippage_bps := slippage_bps, tip_amount := tip_amount }
  let ob' : OrderBook :=
    { ob with
        orders := mapInsert ob.orders fresh order,
        cancel_tasks := mapInsert ob.cancel_tasks fresh () }
  match keypairFromBase58 pkValid keypair_str with
  | none => (ob', [], none)
  | some _ => (ob', [(keypair_str, order)], some (.ok fresh))

/-- `OrderBook::cancel_order` (`src/common/types.rs`): remove the sender from
`cancel_tasks`; if one was there, signal it (middle component) and return
`Ok(())`, else return the `"订单未找到"` (not found) error.  The `orders`
map is not touched. -/
def cancel_order (ob : OrderBook) (order_id : Nat) :
    OrderBook × List Nat × Except Unit Unit :=
  match mapLookup ob.cancel_tasks order_id with
  | some _ =>
    ({ ob with cancel_tasks := mapRemove ob.cancel_tasks order_id },
     [order_id], .ok ())
  | none => (ob, [], .error ())

/-- The registry effect of a watcher task reaching a terminal state: the
spawned closure in `place_order` (`src/common/types.rs` lines 94-116) only
awaits the select and prints `"Deal task failed or was canceled"`; it holds
no reference to the `OrderBook`, so terminal transitions leave the registry
unchanged. -/
def watcher_terminal_effect (ob : OrderBook) : OrderBook := ob

/-! ## The order watcher `_order` (`src/common/types.rs`)

The watcher parses both mints, then loops: poll the price, compare with the
target with the fixed tolerance `0.001`, on a match run `swap_with_tax` once
and return its result, otherwise sleep 800 ms and repeat.  The surrounding
`tokio::select!` is the `cancelAt` parameter threaded through every await
point; `fuel` bounds the number of loop iterations we unroll (`none` in the
result means the loop was still waiting after `fuel` iterations). -/

/-- The price-match tolerance `0.001` of `src/common/types.rs`. -/
def matchEps : ℚ := 1 / 1000

/-- Oracle of a watcher run: per-iteration price-poll results plus the swap
oracle for the single execution attempt. -/
structure WatchOracle where
  prices : Nat → Except Unit ℚ
  swap : SwapOracle

/-- The `loop` of `_order`. -/
def _orderLoop (w : WatchOracle) (cancelAt : Option Nat)
    (user tax_account : Pubkey) (tax_bps slippage_bps : Nat)
    (tip_amount : Option Nat) (until_price : ℚ)
    (input_mint output_mint : Pubkey) (amount : Nat)
    (iter clock fuel : Nat) : List Event × Option (Except Fail Unit) :=
  match fuel with
  | 0 => ([], none)
  | fuel + 1 =>
    let ev := Event.pricePoll iter
    if hitsCancel cancelAt clock then ([ev], some (.error .canceled))
    else
      match w.prices iter with
      | .error _ => ([ev], some (.error (.err .priceFetchFailed)))
      | .ok now_price =>
        if |now_price - until_price| < matchEps then
          let s := swap_with_tax w.swap cancelAt (clock + 1) user tax_account
            tax_bps amount input_mint output_mint slippage_bps tip_amount
          (ev :: s.1, some s.2.2)
        else
          if hitsCancel cancelAt (clock + 1) then
            ([ev, .sleep 800], some (.error .canceled))
          else
            let rest := _orderLoop w cancelAt user tax_account tax_bps
              slippage_bps tip_amount until_price input_mint output_mint
              amount (iter + 1) (clock + 2) fuel
            (ev :: .sleep 800 :: rest.1, rest.2)

/-- `_order`: parse the mint strings (`?` propagates a parse failure), then
run the polling loop.  `user` is the public key of the keypair the watcher
captured. -/
def _orderRun (w : WatchOracle) (cancelAt : Option Nat)
    (user tax_account : Pubkey) (tax_bps slippage_bps : Nat)
    (tip_amount : Option Nat) (order : Order) (fuel : Nat) :
    List Event × Option (Except Fail Unit) :=
  match pubkeyFromStr order.input_mint with
  | none => ([], some (.error (.err .badInputMint)))
  | some input_mint =>
    match pubkeyFromStr order.output_mint with
    | none => ([], some (.error (.err .badOutputMint)))
    | some output_mint =>
      _orderLoop w cancelAt user tax_account tax_bps slippage_bps tip_amount
        order.price input_mint output_mint order.amount 0 0 fuel

/-! ## Trace predicates and expected instruction lists (spec side) -/

/-- Is the event an on-chain send (direct broadcast or bundle submission)? -/
def isSend : Event → Bool
  | .submitBundle _ => true
  | .broadcastConfirm _ => true
  | _ => false

/-- Is the event a simulation that reported success? -/
def isSimSuccess : Event → Bool
  | .simulate _ ok => ok
  | _ => false

/-- Scanning left to right: every send event must be preceded by a
simulation event that reported success. -/
def simulatedBeforeSend : Bool → List Event → Bool
  | _, [] => true
  | seen, e :: es =>
    if isSend e then seen && simulatedBeforeSend seen es
    else simulatedBeforeSend (seen || isSimSuccess e) es

/-- No send event at all. -/
def noSend (l : List Event) : Bool := l.all (fun e => !isSend e)

/-- An event that is neither a send nor a successful simulation. -/
def neutralEv (e : Event) : Bool := !isSend e && !isSimSuccess e

/-- Number of bundle submissions in a trace. -/
def countSubmit (l : List Event) : Nat :=
  l.countP (fun e => match e with | .submitBundle _ => true | _ => false)

/-- Number of bundle-status polls in a trace. -/
def countPoll (l : List Event) : Nat :=
  l.countP (fun e => match e with | .pollStatus _ => true | _ => false)

/-- The optional cleanup instruction, as appended by `swap_with_tax`. -/
def cleanupIxs (resp : SwapResp) : List Ix :=
  match resp.cleanup_instruction with
  | some clean => [.route clean]
  | none => []

/-- Expected instruction list for a native (SOL) input: the tax transfer
first, then all route instructions, then the cleanup. -/
def nativeIxs (user tax_account : Pubkey) (tax_bps amount : Nat)
    (resp : SwapResp) : List Ix :=
  Ix.transfer user tax_account (sub_tax amount tax_bps).2 ::
    (resp.setup_instructions.map .route ++ [.route resp.swap_instruction]
      ++ cleanupIxs resp)

/-- Expected instruction list for a non-native input: all route
instructions, then the tax transfer on the realized output (omitted when the
output is zero), then the cleanup. -/
def nonNativeIxs (user tax_account : Pubkey) (tax_bps out_amount : Nat)
    (resp : SwapResp) : List Ix :=
  resp.setup_instructions.map .route ++ [.route resp.swap_instruction]
    ++ (if out_amount ≠ 0 then
          [Ix.transfer user tax_account (sub_tax out_amount tax_bps).2]
        else [])
    ++ cleanupIxs resp

/-- The trace of a waiting watcher: one price poll and one 800 ms sleep per
iteration. -/
def waitTrace : Nat → Nat → List Event
  | _, 0 => []
  | i, fuel + 1 => .pricePoll i :: .sleep 800 :: waitTrace (i + 1) fuel

/-- `get_tip_account` returns `Ok` with a key decoded from the fixed pool. -/
def tipAccountOk (r : Nat) : Bool :=
  match get_tip_account r with
  | .ok pk => (TIP_ACCOUNTS.filterMap pubkeyFromStr).contains pk
  | .error _ => false

/-! ## Concrete instances used by counterexamples and witnesses -/

/-- An empty order book with a unit tax account and 100 bps tax. -/
def emptyBook : OrderBook :=
  { orders := [], tokens := [], tax_account := [2], tax_bps := 100,
    cancel_tasks := [] }

/-- A point-validity oracle accepting every public-key half. -/
def pkTrue : List Nat → Bool := fun _ => true

/-- Sixty-four `'1'` characters: a base58 string decoding to the 64-byte
all-zero keypair, so `Keypair::from_base58_string` does not panic on it. -/
def kp64 : String :=
  "1111111111111111111111111111111111111111111111111111111111111111"

/-- The book after placing order 7 (amount 5, slippage 50) on `emptyBook`. -/
def book1 : OrderBook :=
  (place_order pkTrue emptyBook 7 kp64 "mintA" "mintB" 1 5 50 none).1

/-- A Jupiter response with two setup instructions, one swap instruction,
a cleanup instruction and no lookup tables. -/
def resp0 : SwapResp :=
  { setup_instructions := [10, 11], swap_instruction := 12,
    cleanup_instruction := some 13,
    address_lookup_table_addresses := [] }

/-- An all-success oracle. -/
def oracle0 : SwapOracle :=
  { quoteRes := .ok 500000, swapIxsRes := .ok resp0, blockhashRes := .ok 42,
    altFetchRes := .ok [], compileOk := true, simRes := .ok none,
    tipChoice := 3, tipCompileOk := true, sendBundleRes := .ok (some "bid"),
    statusRes := .ok (), broadcastRes := .ok () }

/-- A watcher oracle whose price polls always return 5. -/
def worac : WatchOracle := { prices := fun _ => .ok 5, swap := oracle0 }

/-- A tipless order targeting price 5, SOL input. -/
def ord0 : Order :=
  { order_id := 1, price := 5,
    input_mint := "So11111111111111111111111111111111111111112",
    output_mint := "ADaUMid9yfUytqMBgopwjb2DTLSokTSzL1zt6iGPaS49",
    amount := 1000, slippage_bps := 50, tip_amount := none }

/-- The decoded bytes of the first pool account named in `ord0`. -/
def tipPk0 : Pubkey :=
  (pubkeyFromStr "ADaUMid9yfUytqMBgopwjb2DTLSokTSzL1zt6iGPaS49").getD []

/-- Does the event submit an ordered two-transaction bundle whose second
transaction is the independent tip transfer of `tip` lamports from `user`
to `tip_acct`, compiled against `bh`? -/
def goodBundle (user tip_acct : Pubkey) (tip bh : Nat) : Event → Bool
  | .submitBundle txs =>
    match txs with
    | [_, tipTx] =>
      decide (tipTx = { payer := user, ixs := [.transfer user tip_acct tip],
                        alts := [], blockhash := bh })
    | _ => false
  | _ => false

/-! ## Helper lemmas -/

theorem mapLookup_insert {α : Type} (m : List (Nat × α)) (k : Nat) (v : α) :
    mapLookup (mapInsert m k v) k = some v := by
  simp [mapInsert, mapLookup]

theorem mapLookup_remove {α : Type} (m : List (Nat × α)) (k : Nat) :
    mapLookup (mapRemove m k) k = none := by
  induction m with
  | nil => rfl
  | cons p m ih =>
    rcases p with ⟨a, b⟩
    by_cases h : a = k
    · simpa [mapRemove, List.filter_cons, h] using ih
    · simpa [mapRemove, List.filter_cons, h, mapLookup] using ih

/-! ## C2: `sub_tax` arithmetic -/

/-- C2 (counterexample): at `amount = 2^61`, `bps = 10000` the unchecked
`u64` product `amount * tax_bps` wraps to `0`, so `sub_tax` returns
`(2^61, 0)` instead of the claimed `(0, 2^61)`: the tax is not
`⌊amount * bps / 10000⌋` and `bps = 10000` does not give `net = 0`. -/
theorem sub_tax_overflow_cex :
    (sub_tax (2 ^ 61) 10000).2 ≠ 2 ^ 61 * 10000 / 10000 ∧
    (sub_tax (2 ^ 61) 10000).1 ≠ 0 ∧
    (2 ^ 61 : Nat) < U64 ∧ (10000 : Nat) ≤ 10000 := by
  refine ⟨?_, ?_, by decide, le_refl _⟩ <;> decide

/-- C2 (amended): for `amount < 2^64` and `bps ≤ 10000` **with no `u64`
overflow of the product** (`amount * bps < 2^64`), `sub_tax` satisfies
`tax = ⌊amount * bps / 10000⌋`, `net + tax = amount`, `tax ≤ amount`,
`bps = 0 → tax = 0` and `bps = 10000 → net = 0`. -/
theorem sub_tax_no_overflow_spec (amount bps : Nat) (hb : bps ≤ 10000)
    (ha : amount < U64) (hov : amount * bps < U64) :
    (sub_tax amount bps).2 = amount * bps / 10000 ∧
    (sub_tax amount bps).1 + (sub_tax amount bps).2 = amount ∧
    (sub_tax amount bps).2 ≤ amount ∧
    (bps = 0 → (sub_tax amount bps).2 = 0) ∧
    (bps = 10000 → (sub_tax amount bps).1 = 0) := by
  have h10 : (0 : Nat) < 10000 := by norm_num
  have hmod : amount * bps % U64 = amount * bps := Nat.mod_eq_of_lt hov
  have htax : (sub_tax amount bps).2 = amount * bps / 10000 := by
    simp [sub_tax, hmod]
  have hle : amount * bps / 10000 ≤ amount := by
    have h1 : amount * bps ≤ amount * 10000 := Nat.mul_le_mul_left amount hb
    have h2 := Nat.div_le_div_right (c := 10000) h1
    simpa [Nat.mul_div_cancel amount h10] using h2
  have hnet : (sub_tax amount bps).1 = amount - amount * bps / 10000 := by
    simp only [sub_tax, hmod]
    have h1 : amount + U64 - amount * bps / 10000
        = (amount - amount * bps / 10000) + U64 := by omega
    rw [h1, Nat.add_mod_right]
    exact Nat.mod_eq_of_lt (lt_of_le_of_lt (Nat.sub_le _ _) ha)
  refine ⟨htax, ?_, ?_, ?_, ?_⟩
  · rw [hnet, htax]; omega
  · rw [htax]; exact hle
  · intro h0; rw [htax, h0]; simp
  · intro h1
    rw [hnet, h1, Nat.mul_div_cancel amount h10]
    omega

/-- Witness for `sub_tax_no_overflow_spec` at Scenario A
(`amount = 1_000_000`, `bps = 100`). -/
theorem sub_tax_no_overflow_spec_witness :
    (sub_tax 1000000 100).2 = 1000000 * 100 / 10000 ∧
    (sub_tax 1000000 100).1 + (sub_tax 1000000 100).2 = 1000000 ∧
    (sub_tax 1000000 100).2 ≤ 1000000 ∧
    ((100 : Nat) = 0 → (sub_tax 1000000 100).2 = 0) ∧
    ((100 : Nat) = 10000 → (sub_tax 1000000 100).1 = 0) :=
  sub_tax_no_overflow_spec 1000000 100 (by norm_num) (by norm_num [U64])
    (by norm_num [U64])

/-! ## C10: `get_tip_account` is total -/

theorem tip_account_mem (r : Nat) :
    ∃ pk, get_tip_account r = .ok pk ∧
      (TIP_ACCOUNTS.filterMap pubkeyFromStr).contains pk = true := by
  unfold get_tip_account
  have h : r % TIP_ACCOUNTS.length < 8 := Nat.mod_lt _ (by decide)
  set k := r % TIP_ACCOUNTS.length with hk
  interval_cases k <;> exact ⟨_, rfl, by decide⟩

/-- C10: for every random draw, `get_tip_account` returns `Ok` with a key
decoded from the fixed pool, the pool has exactly eight entries, and the
`"no tip accounts available"` branch is unreachable. -/
theorem get_tip_account_total (r : Nat) :
    tipAccountOk r = true ∧ TIP_ACCOUNTS.length = 8 := by
  refine ⟨?_, rfl⟩
  obtain ⟨pk, hok, hmem⟩ := tip_account_mem r
  simpa [tipAccountOk, hok] using hmem

/-! ## C4: `place_order` performs no validation -/

set_option maxRecDepth 10000 in
/-- C5 (counterexample): after placing order 7 and cancelling it, the cancel
reports success but the order-map entry for 7 is **still present** — the
claimed removal of both registry entries does not happen. -/
theorem cancel_order_order_entry_cex :
    (cancel_order book1 7).2.2 = .ok () ∧
    (mapLookup (cancel_order book1 7).1.orders 7).isSome = true :=
  ⟨rfl, rfl⟩

/-- C5 (amended): `cancel_order id` succeeds exactly when a cancellation
handle for `id` is present, in which case it signals the handle and removes
**only the handle entry** (the order-map entry is retained); with no handle
(unknown id or already cancelled) it fails with the not-found error, so a
second cancel of the same id fails. -/
theorem cancel_order_spec (ob : OrderBook) (id : Nat) :
    ((mapLookup ob.cancel_tasks id).isSome = true →
      (cancel_order ob id).2.2 = .ok () ∧
      (cancel_order ob id).1.orders = ob.orders ∧
      (cancel_order ob id).1.cancel_tasks = mapRemove ob.cancel_tasks id ∧
      (cancel_order ob id).2.1 = [id] ∧
      (cancel_order (cancel_order ob id).1 id).2.2 = .error ()) ∧
    ((mapLookup ob.cancel_tasks id).isSome = false →
      (cancel_order ob id).2.2 = .error () ∧
      (cancel_order ob id).1 = ob ∧ (cancel_order ob id).2.1 = []) := by
  constructor
  · intro h
    rcases hl : mapLookup ob.cancel_tasks id with _ | v
    · rw [hl] at h; simp at h
    · refine ⟨?_, ?_, ?_, ?_, ?_⟩ <;>
        simp [cancel_order, hl, mapLookup_remove]
  · intro h
    rcases hl : mapLookup ob.cancel_tasks id with _ | v
    · refine ⟨?_, ?_, ?_⟩ <;> simp [cancel_order, hl]
    · rw [hl] at h; simp at h

set_option maxRecDepth 10000 in
/-- Witness for `cancel_order_spec` on `book1` (order 7 is active). -/
theorem cancel_order_spec_witness :
    (cancel_order book1 7).2.2 = .ok () ∧
    (cancel_order book1 7).1.orders = book1.orders ∧
    (cancel_order book1 7).1.cancel_tasks = mapRemove book1.cancel_tasks 7 ∧
    (cancel_order book1 7).2.1 = [7] ∧
    (cancel_order (cancel_order book1 7).1 7).2.2 = .error () :=
  (cancel_order_spec book1 7).1 rfl

/-! ## C6: the registry pairing invariant -/

set_option maxRecDepth 10000 in
/-- C6 (counterexample): after placing order 7 and cancelling it (a terminal
transition for the order), the registry still holds its order-map entry while
its handle entry is gone: terminal states do not remove the order, and the
exactly-one-handle pairing is broken. -/
theorem registry_terminal_cex :
    (cancel_order book1 7).2.2 = .ok () ∧
    (mapLookup (watcher_terminal_effect (cancel_order book1 7).1).orders 7).isSome
      = true ∧
    (mapLookup (cancel_order book1 7).1.cancel_tasks 7).isSome = false :=
  ⟨rfl, rfl, rfl⟩

/-- C6 (amended): `place_order` inserts the order-map entry and the handle
entry together in one synchronous step (the pairing holds for the fresh id);
but `cancel_order` removes only the handle entry, leaving the order map
unchanged, and a watcher reaching a terminal state modifies the registry not
at all — terminal orders are never removed. -/
theorem registry_pairing_spec (pkValid : List Nat → Bool) (ob : OrderBook)
    (fresh : Nat) (kp im om : String) (price : ℚ) (amount slip : Nat)
    (tip : Option Nat) (id : Nat) :
    ((mapLookup (place_order pkValid ob fresh kp im om price amount slip
        tip).1.orders fresh).isSome = true ∧
     (mapLookup (place_order pkValid ob fresh kp im om price amount slip
        tip).1.cancel_tasks fresh).isSome = true) ∧
    (cancel_order ob id).1.orders = ob.orders ∧
    watcher_terminal_effect ob = ob := by
  refine ⟨⟨?_, ?_⟩, ?_, rfl⟩
  · rcases hk : keypairFromBase58 pkValid kp with _ | pk <;>
      simp [place_order, hk, mapLookup_insert]
  · rcases hk : keypairFromBase58 pkValid kp with _ | pk <;>
      simp [place_order, hk, mapLookup_insert]
  · unfold cancel_order
    rcases mapLookup ob.cancel_tasks id with _ | v <;> rfl

/-! ## C3: tax placement around the route instructions -/

set_option maxHeartbeats 1000000 in
/-- C3: for every swap built by the planner (route and blockhash obtained,
lookup tables resolved): with a native (SOL) input the tax transfer precedes
all route instructions and the route is requested for the net amount; with a
non-native input the route is requested for the full amount and a tax
transfer on the realized output follows all route instructions, omitted when
the output is 0; the cleanup instruction is always last. -/
theorem swap_tax_placement (o : SwapOracle) (user tax_account : Pubkey)
    (tax_bps amount : Nat) (input_mint output_mint : Pubkey)
    (slippage_bps : Nat) (tip : Option Nat) (out : Nat) (resp : SwapResp)
    (bh : Nat) (alts : List AltAccount)
    (hq : o.quoteRes = .ok out) (hs : o.swapIxsRes = .ok resp)
    (hb : o.blockhashRes = .ok bh)
    (halt : (get_address_lookup o none 3 resp.address_lookup_table_addresses).2.2
      = .ok alts) :
    (input_mint = SOL →
      Event.quoteRequest (sub_tax amount tax_bps).1 input_mint output_mint
          slippage_bps
        ∈ (swap_with_tax o none 0 user tax_account tax_bps amount input_mint
            output_mint slippage_bps tip).1 ∧
      Event.compile (nativeIxs user tax_account tax_bps amount resp)
        ∈ (swap_with_tax o none 0 user tax_account tax_bps amount input_mint
            output_mint slippage_bps tip).1) ∧
    (input_mint ≠ SOL →
      Event.quoteRequest amount input_mint output_mint slippage_bps
        ∈ (swap_with_tax o none 0 user tax_account tax_bps amount input_mint
            output_mint slippage_bps tip).1 ∧
      Event.compile (nonNativeIxs user tax_account tax_bps out resp)
        ∈ (swap_with_tax o none 0 user tax_account tax_bps amount input_mint
            output_mint slippage_bps tip).1) := by
  rcases hga : get_address_lookup o none 3 resp.address_lookup_table_addresses
    with ⟨galTr, galC, galRes⟩
  rw [hga] at halt
  simp only at halt
  subst halt
  have hgs : ∀ a i om, get_swap_ix o none 0 a i om slippage_bps
      = ([.quoteRequest a i om slippage_bps, .swapIxsRequest], 2,
         .ok (out, resp)) := by
    intro a i om
    simp [get_swap_ix, hitsCancel, hq, hs]
  have hbv : ∀ ixs, build_versioned_transaction o none 3 ixs user
      resp.address_lookup_table_addresses bh
      = (galTr ++ [.compile ixs], galC,
         if o.compileOk then
           .ok { payer := user, ixs := ixs, alts := alts, blockhash := bh }
         else .error (.err .compileFailed)) := by
    intro ixs
    unfold build_versioned_transaction
    rw [hga]
    cases o.compileOk <;> simp
  constructor
  · intro him
    have hbe : (input_mint == SOL) = true := by
      simp [him]
    cases hco : o.compileOk <;> cases hsb : o.sendBundleRes <;>
      (simp only [swap_with_tax, hgs, hb, hitsCancel, hbv, hco, hsb,
          send_bundle, hbe, Bool.not_true, Bool.false_and,
          nativeIxs, cleanupIxs]
       repeat' split
       all_goals try casesm* _ ∧ _
       all_goals try subst_eqs
       all_goals simp_all [List.mem_append, List.mem_cons])
  · intro him
    have hbe : (input_mint == SOL) = false := by
      simp only [beq_eq_false_iff_ne, ne_eq]
      exact him
    cases hco : o.compileOk <;> cases hsb : o.sendBundleRes <;>
      (simp only [swap_with_tax, hgs, hb, hitsCancel, hbv, hco, hsb,
          send_bundle, hbe, Bool.not_false, Bool.true_and,
          nonNativeIxs, cleanupIxs]
       repeat' split
       all_goals try casesm* _ ∧ _
       all_goals try subst_eqs
       all_goals simp_all [List.mem_append, List.mem_cons])

/-- Witness for `swap_tax_placement`: Scenario A
(`amount = 1_000_000`, `tax_bps = 100`, SOL input, `oracle0`). -/
theorem swap_tax_placement_witness :
    Event.quoteRequest (sub_tax 1000000 100).1 SOL [9] 50
      ∈ (swap_with_tax oracle0 none 0 [1] [2] 100 1000000 SOL [9] 50 none).1 ∧
    Event.compile (nativeIxs [1] [2] 100 1000000 resp0)
      ∈ (swap_with_tax oracle0 none 0 [1] [2] 100 1000000 SOL [9] 50 none).1 :=
  (swap_tax_placement oracle0 [1] [2] 100 1000000 SOL [9] 50 none 500000 resp0
    42 [] rfl rfl rfl rfl).1 rfl

theorem get_address_lookup_trace (o : SwapOracle) (ca : Option Nat) (c : Nat)
    (keys : List Pubkey) :
    (get_address_lookup o ca c keys).1 = [] ∨
    (get_address_lookup o ca c keys).1 = [.fetchAlts keys] := by
  unfold get_address_lookup
  repeat' split
  all_goals simp

/-! ## C9: the tip-bundle settlement path -/

/-- C9 (counterexample): with the relay returning a transport error on
bundle submission, `swap_with_tax` still returns `Ok(())`: the submission
failure is swallowed inside `send_bundle` (`Err(_) => None`), no relay
error is reported, and no status poll happens. -/
theorem bundle_submit_failure_cex :
    (swap_with_tax { oracle0 with sendBundleRes := .error () } none 0 [1] [2]
      100 1000 [8] [9] 50 (some 5000)).2.2 = .ok () ∧
    countPoll (swap_with_tax { oracle0 with sendBundleRes := .error () } none 0
      [1] [2] 100 1000 [8] [9] 50 (some 5000)).1 = 0 :=
  ⟨rfl, rfl⟩

set_option maxHeartbeats 8000000 in
/-- C9 (amended): when a tip is present and the attempt reaches settlement,
a second, independent transfer transaction paying the tip to a random member
of the fixed pool is built; `[swap_tx, tip_tx]` is submitted once as an
ordered bundle; the status is polled exactly once when the submission
returned a bundle id, and is never polled again; but a submission failure is
**silently swallowed** (`swap_with_tax` returns success and performs no
poll), not reported as a relay error. -/
theorem bundle_submission_spec (o : SwapOracle) (user tax_account : Pubkey)
    (tax_bps amount : Nat) (input_mint output_mint : Pubkey)
    (slippage_bps tip : Nat) (out : Nat) (resp : SwapResp) (bh : Nat)
    (alts : List AltAccount)
    (hq : o.quoteRes = .ok out) (hs : o.swapIxsRes = .ok resp)
    (hb : o.blockhashRes = .ok bh)
    (halt : (get_address_lookup o none 3 resp.address_lookup_table_addresses).2.2
      = .ok alts)
    (hco : o.compileOk = true) (hsim : o.simRes = .ok none)
    (htc : o.tipCompileOk = true) :
    ∃ tip_acct, get_tip_account o.tipChoice = .ok tip_acct ∧
      (TIP_ACCOUNTS.filterMap pubkeyFromStr).contains tip_acct = true ∧
      (swap_with_tax o none 0 user tax_account tax_bps amount input_mint
        output_mint slippage_bps (some tip)).1.any
          (goodBundle user tip_acct tip bh) = true ∧
      countSubmit (swap_with_tax o none 0 user tax_account tax_bps amount
        input_mint output_mint slippage_bps (some tip)).1 = 1 ∧
      (∀ id, o.sendBundleRes = .ok (some id) →
        countPoll (swap_with_tax o none 0 user tax_account tax_bps amount
          input_mint output_mint slippage_bps (some tip)).1 = 1) ∧
      (o.sendBundleRes = .ok none →
        countPoll (swap_with_tax o none 0 user tax_account tax_bps amount
          input_mint output_mint slippage_bps (some tip)).1 = 0 ∧
        (swap_with_tax o none 0 user tax_account tax_bps amount input_mint
          output_mint slippage_bps (some tip)).2.2 = .ok ()) ∧
      (∀ u, o.sendBundleRes = .error u →
        countPoll (swap_with_tax o none 0 user tax_account tax_bps amount
          input_mint output_mint slippage_bps (some tip)).1 = 0 ∧
        (swap_with_tax o none 0 user tax_account tax_bps amount input_mint
          output_mint slippage_bps (some tip)).2.2 = .ok ()) := by
  have htr := get_address_lookup_trace o none 3 resp.address_lookup_table_addresses
  rcases hga : get_address_lookup o none 3 resp.address_lookup_table_addresses
    with ⟨galTr, galC, galRes⟩
  rw [hga] at halt htr
  simp only at halt htr
  subst halt
  have hgs : ∀ a i om, get_swap_ix o none 0 a i om slippage_bps
      = ([.quoteRequest a i om slippage_bps, .swapIxsRequest], 2,
         .ok (out, resp)) := by
    intro a i om
    simp [get_swap_ix, hitsCancel, hq, hs]
  have hbv : ∀ ixs, build_versioned_transaction o none 3 ixs user
      resp.address_lookup_table_addresses bh
      = (galTr ++ [.compile ixs], galC,
         .ok { payer := user, ixs := ixs, alts := alts, blockhash := bh }) := by
    intro ixs
    unfold build_versioned_transaction
    rw [hga, hco]
    simp
  obtain ⟨pk, hok, hmem⟩ := tip_account_mem o.tipChoice
  refine ⟨pk, hok, hmem, ?_⟩
  rcases htr with h | h <;> subst h <;>
    rcases hst : o.statusRes with v | v <;>
    rcases hsb : o.sendBundleRes with u | (_ | id) <;>
      (simp only [swap_with_tax, hgs, hb, hitsCancel, hbv, hco, hsim, hok, htc,
        send_bundle, hsb, hst]
       repeat' split
       all_goals try casesm* _ ∧ _
       all_goals try subst_eqs
       all_goals simp_all [goodBundle, countSubmit, countPoll, List.countP_cons,
         List.countP_append, List.countP_nil, List.any_append, List.any_cons])

/-- Witness for `bundle_submission_spec` on `oracle0` (tip 5000). -/
theorem bundle_submission_spec_witness :
    ∃ tip_acct, get_tip_account oracle0.tipChoice = .ok tip_acct ∧
      (TIP_ACCOUNTS.filterMap pubkeyFromStr).contains tip_acct = true ∧
      (swap_with_tax oracle0 none 0 [1] [2] 100 1000 [8] [9] 50
        (some 5000)).1.any (goodBundle [1] tip_acct 5000 42) = true ∧
      countSubmit (swap_with_tax oracle0 none 0 [1] [2] 100 1000 [8] [9] 50
        (some 5000)).1 = 1 ∧
      (∀ id, oracle0.sendBundleRes = .ok (some id) →
        countPoll (swap_with_tax oracle0 none 0 [1] [2] 100 1000 [8] [9] 50
          (some 5000)).1 = 1) ∧
      (oracle0.sendBundleRes = .ok none →
        countPoll (swap_with_tax oracle0 none 0 [1] [2] 100 1000 [8] [9] 50
          (some 5000)).1 = 0 ∧
        (swap_with_tax oracle0 none 0 [1] [2] 100 1000 [8] [9] 50
          (some 5000)).2.2 = .ok ()) ∧
      (∀ u, oracle0.sendBundleRes = .error u →
        countPoll (swap_with_tax oracle0 none 0 [1] [2] 100 1000 [8] [9] 50
          (some 5000)).1 = 0 ∧
        (swap_with_tax oracle0 none 0 [1] [2] 100 1000 [8] [9] 50
          (some 5000)).2.2 = .ok ()) :=
  bundle_submission_spec oracle0 [1] [2] 100 1000 [8] [9] 50 5000 500000 resp0
    42 [] rfl rfl rfl rfl rfl rfl rfl
